import Mathlib

/-!
Verification of the fraud-detector bot's classification core
(src/main.py and src/config.py).

The development shallowly embeds:
* `FraudAnalyzer.analyze_text` (src/main.py lines 101-158): the local
  pattern scorer over the `FRAUD_PATTERNS` rule table (lines 43-99);
* the provider response-shape validation shared by `_analyze_deepseek`
  (lines 258-293) and `_analyze_chatgpt` (lines 363-398);
* `LLMProvider.analyze` (lines 171-195): the Deepseek-then-ChatGPT
  fallback orchestrator, with an explicit trace of network calls;
* the result-merge step of `analyze_message` (lines 550-580).

Python strings are modelled as `String`/`List Char` over code points,
Python `in` on strings as contiguous-sublist containment, Python dicts
and JSON values as an inductive `Json` type, and Python floats as exact
rationals (every arithmetic operation performed by the scorer is exact
on the decimal literals involved, up to floating-point representation).
-/

namespace GuardCall

/-- Python `str.lower` on a single character, restricted to the alphabet
the bot processes: ASCII letters `A`-`Z` (code points 65-90) and Cyrillic
`А`-`Я` (code points 1040-1071) map down by 32, and `Ё` (1025) maps to
`ё` (1105); every other character is unchanged.  This models
`text.lower()` at src/main.py line 105 faithfully on ASCII and Cyrillic
text (the alphabet of the rule table and of the bot's Russian inputs). -/
def pyLowerChar (c : Char) : Char :=
  if 65 ≤ c.toNat ∧ c.toNat ≤ 90 then Char.ofNat (c.toNat + 32)
  else if 1040 ≤ c.toNat ∧ c.toNat ≤ 1071 then Char.ofNat (c.toNat + 32)
  else if c.toNat = 1025 then Char.ofNat 1105
  else c

/-- Python `text.lower()` over the character sequence of the text. -/
def pyLower (l : List Char) : List Char := l.map pyLowerChar

/-- Python `pat in tl` for strings: `pat` occurs as a contiguous
substring of the character sequence `tl`. -/
def pyIn (pat : String) (tl : List Char) : Bool := decide (pat.data <:+: tl)

/-- One entry of the `FRAUD_PATTERNS` rule table (src/main.py lines
43-99): the three phrase lists of a fraud category. -/
structure Patterns where
  keywords : List String
  urgency : List String
  red_flags : List String
  deriving DecidableEq, Repr

/-- The `credit` entry of `FRAUD_PATTERNS` (src/main.py lines 44-54). -/
def creditPatterns : Patterns where
  keywords := ["кредит", "одобрен", "займ", "деньги", "банк",
               "счет", "реквизиты", "карта", "линия", "заём"]
  urgency := ["срочно", "быстро", "немедленно", "прямо сейчас", "срок"]
  red_flags := ["нужны ваши данные", "дайте коды", "отправьте смс",
                "подтвердите личность", "ввести пин", "скопируй код"]

/-- The `sim_swap` entry of `FRAUD_PATTERNS` (src/main.py lines 55-65). -/
def simSwapPatterns : Patterns where
  keywords := ["номер", "симка", "оператор", "идентификация",
               "переход", "мегафон", "мтс", "билайн", "теле2"]
  urgency := ["заблокирован", "закрыли", "проблема", "внимание"]
  red_flags := ["перевести номер", "новая симка", "переходи на нас",
                "перезагрузи телефон", "тариф изменится"]

/-- The `investment` entry of `FRAUD_PATTERNS` (src/main.py lines 66-76). -/
def investmentPatterns : Patterns where
  keywords := ["инвестиции", "прибыль", "доход", "акции", "крипто",
               "биток", "ethereum", "трейдинг", "форекс"]
  urgency := ["только сегодня", "последняя возможность", "ограничено", "завтра подорожает"]
  red_flags := ["гарантированный доход", "100% прибыль", "откупок гарантирован",
                "внесите депозит", "инвестируй сейчас"]

/-- The `utility` entry of `FRAUD_PATTERNS` (src/main.py lines 77-87). -/
def utilityPatterns : Patterns where
  keywords := ["квартира", "коммунальные", "электричество", "вода",
               "газ", "интернет", "счет", "оплата", "ЖКХ"]
  urgency := ["перекроют", "отключат", "срок", "задолженность", "немедленно"]
  red_flags := ["пополните счет", "переведите деньги", "срок истекает",
                "деньги нужны сегодня", "иначе отключим"]

/-- The `lottery` entry of `FRAUD_PATTERNS` (src/main.py lines 88-98). -/
def lotteryPatterns : Patterns where
  keywords := ["выиграл", "приз", "лотерея", "подарок", "везёт",
               "удача", "миллион", "награда", "получить"]
  urgency := ["спеши", "скоро истечет", "срок ограничен"]
  red_flags := ["отправь комиссию", "внеси деньги", "подтверди участие",
                "переведи", "активируй приз"]

/-- The `FRAUD_PATTERNS` table (src/main.py lines 43-99), in its
declaration order, which is also Python's dict iteration order. -/
def FRAUD_PATTERNS : List (String × Patterns) :=
  [("credit", creditPatterns), ("sim_swap", simSwapPatterns),
   ("investment", investmentPatterns), ("utility", utilityPatterns),
   ("lottery", lotteryPatterns)]

/-- The per-category score of src/main.py lines 109-126: +1 for each
keyword present in the lowercased text, +2 for each urgency phrase,
+3 for each red flag. -/
def categoryScore (p : Patterns) (tl : List Char) : Nat :=
  (p.keywords.filter (fun k => pyIn k tl)).length
    + 2 * (p.urgency.filter (fun u => pyIn u tl)).length
    + 3 * (p.red_flags.filter (fun f => pyIn f tl)).length

/-- The `matched_flags` list of src/main.py lines 123-126: the red
flags present in the lowercased text, in table order. -/
def matchedFlags (p : Patterns) (tl : List Char) : List String :=
  p.red_flags.filter (fun f => pyIn f tl)

/-- The dict returned by `FraudAnalyzer.analyze_text` (src/main.py
lines 151-158). -/
structure LocalResult where
  fraud_type : String
  risk_level : String
  confidence : ℚ
  red_flags : List String
  local_score : Nat
  method : String
  deriving DecidableEq, Repr

/-- The risk-level / confidence mapping of src/main.py lines 138-149,
as a function of the winning score. -/
def riskOf (s : Nat) : String × ℚ :=
  if 40 ≤ s then ("high", min 0.95 ((s : ℚ) / 100))
  else if 20 ≤ s then ("medium", min 0.80 ((s : ℚ) / 50))
  else if 5 ≤ s then ("low", (s : ℚ) / 20)
  else ("none", 0)

/-- Python `max(…, key=sc)` over the non-empty sequence `x :: l`:
scan left to right, replacing the current best only on a strictly
greater key, so the first maximal element wins (src/main.py line 134). -/
def pyMax {α : Type} (sc : α → Nat) (x : α) (l : List α) : α :=
  l.foldl (fun b y => if sc y > sc b then y else b) x

/-- `FraudAnalyzer.analyze_text` (src/main.py lines 101-158),
parameterised by the rule table.  The `scores` dict keeps one
`(score, flags)` entry per category, in declaration order; `best` is
Python's `max(scores, key=…)` together with its entry (category names
in the table are distinct, so carrying the entry alongside the name is
the same as the source's `scores[best_type]` lookup). -/
def analyzeWith (tbl : List (String × Patterns)) (text : String) : LocalResult :=
  let tl := pyLower text.data
  let scores := tbl.map (fun np => (np.1, categoryScore np.2 tl, matchedFlags np.2 tl))
  match scores with
  | [] =>
    { fraud_type := "unknown", risk_level := "none", confidence := 0,
      red_flags := [], local_score := 0, method := "local_patterns" }
  | x :: rest =>
    let best := pyMax (fun e => e.2.1) x rest
    let rc := riskOf best.2.1
    { fraud_type := if 0 < best.2.1 then best.1 else "unknown"
      risk_level := rc.1
      confidence := rc.2
      red_flags := best.2.2.take 5
      local_score := best.2.1
      method := "local_patterns" }

namespace FraudAnalyzer

/-- `FraudAnalyzer.analyze_text` (src/main.py lines 101-158) on the
real `FRAUD_PATTERNS` table. -/
def analyze_text (text : String) : LocalResult := analyzeWith FRAUD_PATTERNS text

end FraudAnalyzer

/-- JSON values, as produced by `resp.json()` / `json.loads`. -/
inductive Json where
  | null
  | bool (b : Bool)
  | num (q : ℚ)
  | str (s : String)
  | arr (elems : List Json)
  | obj (fields : List (String × Json))

mutual

/-- Structural equality of JSON values (Python `==` on decoded JSON). -/
def Json.beq : Json → Json → Bool
  | .null, .null => true
  | .bool a, .bool b => a == b
  | .num a, .num b => a == b
  | .str a, .str b => a == b
  | .arr a, .arr b => Json.beqList a b
  | .obj a, .obj b => Json.beqFields a b
  | _, _ => false

/-- Structural equality of JSON arrays. -/
def Json.beqList : List Json → List Json → Bool
  | [], [] => true
  | a :: as, b :: bs => Json.beq a b && Json.beqList as bs
  | _, _ => false

/-- Structural equality of JSON object field lists. -/
def Json.beqFields : List (String × Json) → List (String × Json) → Bool
  | [], [] => true
  | (k, v) :: as, (l, w) :: bs => k == l && Json.beq v w && Json.beqFields as bs
  | _, _ => false

end

instance : BEq Json := ⟨Json.beq⟩

/-- Python `j[k]` / `k in j` on a dict: look the key up among the
fields.  On a non-dict it returns `none` (in Python, indexing a
non-dict with a string key raises `TypeError`, which the sources catch
and turn into the same `None` outcome). -/
def Json.getField : Json → String → Option Json
  | .obj fields, k => (fields.find? (fun f => f.1 == k)).map (fun f => f.2)
  | _, _ => none

/-- Python `j[k] = v`: on a dict, overwrite the existing field or
append a new one; on any non-dict the assignment raises `TypeError`,
modelled as `none`. -/
def Json.setField : Json → String → Json → Option Json
  | .obj fields, k, v =>
    if fields.any (fun f => f.1 == k) then
      some (.obj (fields.map (fun f => if f.1 == k then (k, v) else f)))
    else some (.obj (fields ++ [(k, v)]))
  | _, _, _ => none

/-- Python truthiness of a decoded JSON value: `None`, `False`, `0`,
`""`, `[]` and an empty dict are falsy, everything else is truthy. -/
def Json.pyTruthy : Json → Bool
  | .null => false
  | .bool b => b
  | .num q => decide (q ≠ 0)
  | .str s => !s.isEmpty
  | .arr elems => !elems.isEmpty
  | .obj fields => !fields.isEmpty

/-- The response-shape validation and content extraction performed
after an HTTP 200 response, shared verbatim by `_analyze_deepseek`
(src/main.py lines 258-284) and `_analyze_chatgpt` (lines 363-389):
returns the `message.content` string that would be handed to
`json.loads`, or `none` on every path where the source returns `None`.
The source sets `choice = result["choices"]` (without `[0]`), so
`"message" not in choice` is a list-membership test against the string
`"message"`; when that membership holds, `choice["message"]` indexes a
list with a string and raises `TypeError`, caught at lines 290-293.
Both paths return `None`. -/
def extractContent (result : Json) : Option String :=
  match result.getField "choices" with
  | none => none
  | some choices =>
    match choices with
    | .arr [] => none
    | .arr elems =>
      if elems.contains (Json.str "message") then none
      else none
    | _ => none

/-- The intended extraction the spec describes (`choices[0].message.content`).
Modelled from the spec: "missing `choices`, `choices` not a non-empty
sequence, missing `message.content` → `ResponseShapeError`"; on success
the content string of the first choice is returned. -/
def specExtractContent (result : Json) : Option String :=
  match result.getField "choices" with
  | none => none
  | some (.arr (choice :: _)) =>
    match choice.getField "message" with
    | none => none
    | some message =>
      match message.getField "content" with
      | some (.str content) => some content
      | _ => none
  | some _ => none

/-- The concrete `message.content` payload of the well-formed example
response: a JSON-encoded object. -/
def exContent : String := "\x7b\x22fraud_type\x22: \x22credit\x22\x7d"

/-- The first (and only) element of `choices` in the well-formed
example response. -/
def exChoice : Json := .obj [("message", .obj [("content", .str exContent)])]

/-- A well-formed provider response in the documented shape: an object
whose `choices` field is a one-element array of an object carrying
`message.content`. -/
def exResponse : Json := .obj [("choices", .arr [exChoice])]

/-- The two network calls `LLMProvider.analyze` can make. -/
inductive ProviderCall where
  | deepseek
  | chatgpt
  deriving DecidableEq, Repr

/-- The environment of one `LLMProvider.analyze` run: the two
constructor arguments of `LLMProvider` (src/main.py lines 167-169) and
the outcome each `_analyze_*` coroutine would produce if awaited
(`none` models every failure path of lines 250-300 / 355-405: non-200
status, timeout, parse or shape error, network exception). -/
structure LLMEnv where
  deepseek_key : String
  chatgpt_key : String
  deepseekResponse : Option Json
  chatgptResponse : Option Json

/-- Python truthiness of a key string: `if self.deepseek_key:` is taken
iff the key is non-empty (src/config.py defaults unset keys to `""`). -/
def pyTruthy (s : String) : Bool := !s.isEmpty

/-- Outcome of a call to `LLMProvider.analyze`: either a normal return
(`Some`d tagged JSON, or Python `None`) or an uncaught `TypeError`
raised by `result["provider"] = …` on a truthy non-dict result
(`analyze` has no try/except of its own, so it propagates to the
caller). -/
inductive PyReturn where
  | ret (v : Option Json)
  | typeError

/-- One provider block of `LLMProvider.analyze` (src/main.py lines
175-182 for Deepseek, 185-192 for ChatGPT): when the key is truthy the
coroutine is awaited (recorded in the trace as `call`); `if result:`
then tests Python truthiness of the outcome — a truthy result is
tagged via `result["provider"] = tag` (a `TypeError` when the decoded
JSON is not a dict) and returned early (`some` in the first
component); a falsy or `None` result falls through (`none`). -/
def attemptProvider (key : String) (response : Option Json) (tag : String)
    (call : ProviderCall) : Option PyReturn × List ProviderCall :=
  if pyTruthy key then
    match response with
    | some r =>
      if r.pyTruthy then
        match r.setField "provider" (.str tag) with
        | some tagged => (some (.ret (some tagged)), [call])
        | none => (some .typeError, [call])
      else (none, [call])
    | none => (none, [call])
  else (none, [])

namespace LLMProvider

/-- `LLMProvider.analyze` (src/main.py lines 171-195), returning the
outcome of the Python call together with the trace of provider network
calls actually awaited: run the Deepseek block; if it returned early,
that is the answer; otherwise run the ChatGPT block the same way;
otherwise return `None`. -/
def analyze (env : LLMEnv) : PyReturn × List ProviderCall :=
  match attemptProvider env.deepseek_key env.deepseekResponse "deepseek" ProviderCall.deepseek with
  | (some early, t1) => (early, t1)
  | (none, t1) =>
    match attemptProvider env.chatgpt_key env.chatgptResponse "chatgpt" ProviderCall.chatgpt with
    | (some early, t2) => (early, t1 ++ t2)
    | (none, t2) => (PyReturn.ret none, t1 ++ t2)

end LLMProvider

/-- A provider block puts at most its own call in the trace. -/
theorem attemptProvider_trace (key : String) (response : Option Json)
    (tag : String) (call : ProviderCall) :
    (attemptProvider key response tag call).2 = [] ∨
    (attemptProvider key response tag call).2 = [call] := by
  unfold attemptProvider
  split_ifs with hk
  · rcases response with _ | r
    · exact Or.inr rfl
    · dsimp only
      split_ifs with htr
      · rcases hsf : r.setField "provider" (Json.str tag) with _ | tagged <;> simp [hsf]
      · exact Or.inr rfl
  · exact Or.inl rfl

/-- The trace of `LLMProvider.analyze` is the Deepseek block's trace,
possibly followed by the ChatGPT block's trace. -/
theorem analyze_trace_cases (env : LLMEnv) :
    (LLMProvider.analyze env).2 =
      (attemptProvider env.deepseek_key env.deepseekResponse "deepseek" ProviderCall.deepseek).2 ∨
    (LLMProvider.analyze env).2 =
      (attemptProvider env.deepseek_key env.deepseekResponse "deepseek" ProviderCall.deepseek).2 ++
      (attemptProvider env.chatgpt_key env.chatgptResponse "chatgpt" ProviderCall.chatgpt).2 := by
  unfold LLMProvider.analyze
  rcases h1 : attemptProvider env.deepseek_key env.deepseekResponse "deepseek" ProviderCall.deepseek
    with ⟨early1, t1⟩
  rcases early1 with _ | ret1
  · rcases h2 : attemptProvider env.chatgpt_key env.chatgptResponse "chatgpt" ProviderCall.chatgpt
      with ⟨early2, t2⟩
    rcases early2 with _ | ret2 <;> simp [h1, h2]
  · simp [h1]

/-- Step 3 of `analyze_message` (src/main.py lines 560-565): the final
result is the LLM result when present, the local result otherwise. -/
def chooseFinal (gpt : Option Json) (localResult : Json) : Json :=
  match gpt with
  | some g => g
  | none => localResult

/-- The dict literal returned by `FraudAnalyzer.analyze_text`
(src/main.py lines 151-158), as a JSON value. -/
def localToJson (r : LocalResult) : Json :=
  .obj [("fraud_type", .str r.fraud_type), ("risk_level", .str r.risk_level),
        ("confidence", .num r.confidence), ("red_flags", .arr (r.red_flags.map .str)),
        ("local_score", .num r.local_score), ("method", .str r.method)]

/-- `final_result.get("provider", "local")` (src/main.py line 580):
the provider tag rendered as the analysis source. -/
def providerTag (finalResult : Json) : Json :=
  (finalResult.getField "provider").getD (.str "local")

/-! ## Helper lemmas -/

/-- The confidence field of any analysis is `riskOf` of its winning score. -/
theorem analyzeWith_confidence (tbl : List (String × Patterns)) (t : String) :
    (analyzeWith tbl t).confidence = (riskOf (analyzeWith tbl t).local_score).2 := by
  cases tbl with
  | nil => rfl
  | cons np rest => rfl

/-- The risk-level field of any analysis is `riskOf` of its winning score. -/
theorem analyzeWith_risk_level (tbl : List (String × Patterns)) (t : String) :
    (analyzeWith tbl t).risk_level = (riskOf (analyzeWith tbl t).local_score).1 := by
  cases tbl with
  | nil => rfl
  | cons np rest => rfl

/-! ## C1: provider response validation -/

/-- Validation never succeeds: because `choice = result["choices"]`
omits the `[0]` index, the `"message" not in choice` test is a
list-membership test that can only lead to the `None`-returning
branches, whatever the response is. -/
theorem extractContent_eq_none (j : Json) : extractContent j = none := by
  unfold extractContent
  rcases h : j.getField "choices" with _ | choices
  · rfl
  · rcases choices with _ | b | q | s | elems | fields
    · rfl
    · rfl
    · rfl
    · rfl
    · rcases elems with _ | ⟨e, es⟩
      · rfl
      · dsimp only
        split <;> rfl
    · rfl

/-- C1: the claim fails on the code.  `exResponse` is a provider
response with the documented well-formed shape: its `choices` field is
present and a non-empty array, and the first choice carries
`message.content`, a string that decodes as a JSON object.  The claim
says the classify operation succeeds on it, and the spec-modelled
extraction `specExtractContent` indeed succeeds; but the code's
`extractContent` returns `None` on it — in fact on every response —
because `choice = result["choices"]` drops the `[0]` index, so the
success path is unreachable and every 200 response ends in the
shape-error path. -/
theorem C1_shape_validation_never_succeeds :
    exResponse.getField "choices" = some (.arr [exChoice]) ∧
    exChoice.getField "message" = some (.obj [("content", .str exContent)]) ∧
    specExtractContent exResponse = some exContent ∧
    extractContent exResponse = none ∧
    (∀ j : Json, extractContent j = none) :=
  ⟨rfl, rfl, rfl, rfl, extractContent_eq_none⟩

/-! ## C5, C6, C7: fallback orchestration -/

/-- C5: if Deepseek is configured and its classify call succeeds — the
coroutine returns a truthy dict, the only outcome the spec calls a
`ClassificationResult` — then `LLMProvider.analyze` returns that
result tagged with `provider = "deepseek"`, the only network call of
the request is the Deepseek one, and ChatGPT is never invoked. -/
theorem C5_short_circuit (env : LLMEnv) (fields : List (String × Json)) (tagged : Json)
    (hk : pyTruthy env.deepseek_key = true)
    (hr : env.deepseekResponse = some (Json.obj fields))
    (hne : fields ≠ [])
    (hset : (Json.obj fields).setField "provider" (Json.str "deepseek") = some tagged) :
    LLMProvider.analyze env = (PyReturn.ret (some tagged), [ProviderCall.deepseek]) ∧
    ProviderCall.chatgpt ∉ (LLMProvider.analyze env).2 := by
  have htr : (Json.obj fields).pyTruthy = true := by
    cases fields with
    | nil => exact absurd rfl hne
    | cons f fs => rfl
  have key : LLMProvider.analyze env = (PyReturn.ret (some tagged), [ProviderCall.deepseek]) := by
    unfold LLMProvider.analyze attemptProvider
    rw [hk, hr]
    simp only [if_true]
    rw [htr]
    simp only [if_true]
    rw [hset]
  refine ⟨key, ?_⟩
  rw [key]
  simp

/-- C5 witness: a concrete environment where Deepseek is configured and
its call yields the truthy dict `(fraud_type = credit)`; the ChatGPT
outcome is present but never reached. -/
theorem C5_short_circuit_witness :
    LLMProvider.analyze
        ⟨"dk", "ck", some (Json.obj [("fraud_type", Json.str "credit")]), some Json.null⟩ =
      (PyReturn.ret (some (Json.obj
          [("fraud_type", Json.str "credit"), ("provider", Json.str "deepseek")])),
        [ProviderCall.deepseek]) ∧
    ProviderCall.chatgpt ∉
      (LLMProvider.analyze
        ⟨"dk", "ck", some (Json.obj [("fraud_type", Json.str "credit")]), some Json.null⟩).2 :=
  C5_short_circuit
    ⟨"dk", "ck", some (Json.obj [("fraud_type", Json.str "credit")]), some Json.null⟩
    [("fraud_type", Json.str "credit")]
    (Json.obj [("fraud_type", Json.str "credit"), ("provider", Json.str "deepseek")])
    rfl rfl (by simp) rfl

/-- C6: when every provider call fails (both `_analyze_*` outcomes are
`None`, whatever keys are configured), `LLMProvider.analyze` returns
`None` — no exception — and step 3 of `analyze_message` applied to
that absent value picks the local result unchanged. -/
theorem C6_fallback_exhaustion (env : LLMEnv) (loc : LocalResult)
    (h1 : env.deepseekResponse = none) (h2 : env.chatgptResponse = none) :
    (LLMProvider.analyze env).1 = PyReturn.ret none ∧
    chooseFinal none (localToJson loc) = localToJson loc := by
  refine ⟨?_, rfl⟩
  cases hk1 : pyTruthy env.deepseek_key <;> cases hk2 : pyTruthy env.chatgpt_key <;>
    simp [LLMProvider.analyze, attemptProvider, h1, h2, hk1, hk2]

/-- C6 witness: both providers configured and failing, on a concrete
local result. -/
theorem C6_fallback_exhaustion_witness :
    (LLMProvider.analyze ⟨"dk", "ck", none, none⟩).1 = PyReturn.ret none ∧
    chooseFinal none (localToJson ⟨"credit", "low", 3/10, [], 6, "local_patterns"⟩) =
      localToJson ⟨"credit", "low", 3/10, [], 6, "local_patterns"⟩ :=
  C6_fallback_exhaustion ⟨"dk", "ck", none, none⟩
    ⟨"credit", "low", 3/10, [], 6, "local_patterns"⟩ rfl rfl

/-- C7: a provider whose API key is not configured (falsy: unset keys
default to the empty string) is skipped — its network call never
appears in the trace; and with both providers unconfigured,
`LLMProvider.analyze` returns `None` with an empty trace, and the
merged final result is the local result, whose rendered source
`final_result.get("provider", "local")` is `"local"`. -/
theorem C7_unconfigured_skipped :
    (∀ env : LLMEnv, pyTruthy env.deepseek_key = false →
      ProviderCall.deepseek ∉ (LLMProvider.analyze env).2) ∧
    (∀ env : LLMEnv, pyTruthy env.chatgpt_key = false →
      ProviderCall.chatgpt ∉ (LLMProvider.analyze env).2) ∧
    (∀ (env : LLMEnv) (loc : LocalResult),
      pyTruthy env.deepseek_key = false → pyTruthy env.chatgpt_key = false →
      LLMProvider.analyze env = (PyReturn.ret none, []) ∧
      providerTag (chooseFinal none (localToJson loc)) = .str "local") := by
  refine ⟨?_, ?_, ?_⟩
  · intro env hk
    have h1 : attemptProvider env.deepseek_key env.deepseekResponse "deepseek"
        ProviderCall.deepseek = (none, []) := by
      simp [attemptProvider, hk]
    rcases analyze_trace_cases env with h | h
    · rw [h, h1]
      simp
    · rw [h, h1]
      rcases attemptProvider_trace env.chatgpt_key env.chatgptResponse "chatgpt"
        ProviderCall.chatgpt with h2 | h2 <;> rw [h2] <;> simp
  · intro env hk
    have h2 : attemptProvider env.chatgpt_key env.chatgptResponse "chatgpt"
        ProviderCall.chatgpt = (none, []) := by
      simp [attemptProvider, hk]
    rcases analyze_trace_cases env with h | h <;> rw [h] <;>
      rcases attemptProvider_trace env.deepseek_key env.deepseekResponse "deepseek"
        ProviderCall.deepseek with h1 | h1 <;> rw [h1] <;> simp [h2]
  · intro env loc h1 h2
    refine ⟨?_, rfl⟩
    simp [LLMProvider.analyze, attemptProvider, h1, h2]

/-- C7 witness: the concrete both-keys-empty environment. -/
theorem C7_unconfigured_skipped_witness :
    ProviderCall.deepseek ∉ (LLMProvider.analyze ⟨"", "", none, none⟩).2 ∧
    ProviderCall.chatgpt ∉ (LLMProvider.analyze ⟨"", "", none, none⟩).2 ∧
    LLMProvider.analyze ⟨"", "", none, none⟩ = (PyReturn.ret none, []) ∧
    providerTag (chooseFinal none
        (localToJson ⟨"unknown", "none", 0, [], 0, "local_patterns"⟩)) = .str "local" := by
  refine ⟨C7_unconfigured_skipped.1 ⟨"", "", none, none⟩ rfl,
          C7_unconfigured_skipped.2.1 ⟨"", "", none, none⟩ rfl, ?_, ?_⟩
  · exact (C7_unconfigured_skipped.2.2 ⟨"", "", none, none⟩
      ⟨"unknown", "none", 0, [], 0, "local_patterns"⟩ rfl rfl).1
  · exact (C7_unconfigured_skipped.2.2 ⟨"", "", none, none⟩
      ⟨"unknown", "none", 0, [], 0, "local_patterns"⟩ rfl rfl).2

/-! ## C2: the spec's Example 1 transcript -/

/-- The transcript of the spec's Example 1. -/
def ex1 : String :=
  "Привет, это служба банка. У вас одобрена кредитная линия на 500000 рублей. Срочно нужны коды с вашей карты для активации."

set_option maxRecDepth 100000 in
/-- Concrete evaluation of the scorer on `ex1`: the credit category
wins with score 6 (keywords `кредит`, `одобрен`, `банк`, `линия` in
`одобрена кредитная линия … банка` and urgency `срочно`; no configured
red-flag phrase occurs in the text, in particular `нужны ваши данные`
does not — the text says `нужны коды с вашей карты`). -/
theorem ex1_eval :
    (FraudAnalyzer.analyze_text ex1).fraud_type = "credit" ∧
    (FraudAnalyzer.analyze_text ex1).risk_level = "low" ∧
    (FraudAnalyzer.analyze_text ex1).red_flags = [] ∧
    (FraudAnalyzer.analyze_text ex1).local_score = 6 := by
  decide

/-- C2 counterexample: on the Example 1 transcript the local scorer
does not return `riskLevel = high`, its confidence is below 0.5 (let
alone ≥ 0.5), and its red-flags list is empty, so it contains no
"нужны ваши данные"-class phrase. -/
theorem C2_example1_fails :
    (FraudAnalyzer.analyze_text ex1).risk_level ≠ "high" ∧
    (FraudAnalyzer.analyze_text ex1).confidence < 1/2 ∧
    (FraudAnalyzer.analyze_text ex1).red_flags = [] := by
  refine ⟨?_, ?_, ex1_eval.2.2.1⟩
  · rw [ex1_eval.2.1]
    decide
  · rw [FraudAnalyzer.analyze_text, analyzeWith_confidence]
    rw [show (analyzeWith FRAUD_PATTERNS ex1).local_score = 6 from ex1_eval.2.2.2]
    norm_num [riskOf]

/-- C2 amended: on the Example 1 transcript the local scorer returns
`fraudType = credit`, but `riskLevel = low` with confidence 0.3 (the
winning score is 6) and an empty red-flags list. -/
theorem C2_example1_amended :
    (FraudAnalyzer.analyze_text ex1).fraud_type = "credit" ∧
    (FraudAnalyzer.analyze_text ex1).risk_level = "low" ∧
    (FraudAnalyzer.analyze_text ex1).confidence = 3/10 ∧
    (FraudAnalyzer.analyze_text ex1).red_flags = [] ∧
    (FraudAnalyzer.analyze_text ex1).local_score = 6 := by
  refine ⟨ex1_eval.1, ex1_eval.2.1, ?_, ex1_eval.2.2.1, ex1_eval.2.2.2⟩
  rw [FraudAnalyzer.analyze_text, analyzeWith_confidence]
  rw [show (analyzeWith FRAUD_PATTERNS ex1).local_score = 6 from ex1_eval.2.2.2]
  norm_num [riskOf]

/-! ## C10: confidence is not monotone in the winning score -/

/-- A transcript whose credit score is 19: five credit red flags
(15 points) and two urgency phrases (4 points). -/
def tScore19 : String :=
  "нужны ваши данные дайте коды отправьте смс подтвердите личность ввести пин срочно быстро"

/-- `tScore19` extended with the keyword `банк`, giving credit score 20. -/
def tScore20 : String :=
  "нужны ваши данные дайте коды отправьте смс подтвердите личность ввести пин срочно быстро банк"

set_option maxRecDepth 100000 in
/-- Concrete evaluation of the scorer on `tScore19`. -/
theorem tScore19_eval :
    (FraudAnalyzer.analyze_text tScore19).local_score = 19 ∧
    (FraudAnalyzer.analyze_text tScore19).risk_level = "low" := by
  decide

set_option maxRecDepth 100000 in
/-- Concrete evaluation of the scorer on `tScore20`. -/
theorem tScore20_eval :
    (FraudAnalyzer.analyze_text tScore20).local_score = 20 ∧
    (FraudAnalyzer.analyze_text tScore20).risk_level = "medium" := by
  decide

/-- C10: confidence is not monotone in the winning score.  On
`tScore19` the winning score is 19, giving `riskLevel = low` with
confidence 19/20 = 0.95; on `tScore20` the winning score is 20, giving
`riskLevel = medium` with confidence 2/5 = 0.40: a strictly higher
winning score with a strictly lower confidence. -/
theorem C10_confidence_not_monotone :
    (FraudAnalyzer.analyze_text tScore19).local_score = 19 ∧
    (FraudAnalyzer.analyze_text tScore19).risk_level = "low" ∧
    (FraudAnalyzer.analyze_text tScore19).confidence = 19/20 ∧
    (FraudAnalyzer.analyze_text tScore20).local_score = 20 ∧
    (FraudAnalyzer.analyze_text tScore20).risk_level = "medium" ∧
    (FraudAnalyzer.analyze_text tScore20).confidence = 2/5 ∧
    (FraudAnalyzer.analyze_text tScore19).local_score <
      (FraudAnalyzer.analyze_text tScore20).local_score ∧
    (FraudAnalyzer.analyze_text tScore20).confidence <
      (FraudAnalyzer.analyze_text tScore19).confidence := by
  have h19 : (FraudAnalyzer.analyze_text tScore19).confidence = 19/20 := by
    rw [FraudAnalyzer.analyze_text, analyzeWith_confidence]
    rw [show (analyzeWith FRAUD_PATTERNS tScore19).local_score = 19 from tScore19_eval.1]
    norm_num [riskOf]
  have h20 : (FraudAnalyzer.analyze_text tScore20).confidence = 2/5 := by
    rw [FraudAnalyzer.analyze_text, analyzeWith_confidence]
    rw [show (analyzeWith FRAUD_PATTERNS tScore20).local_score = 20 from tScore20_eval.1]
    norm_num [riskOf]
  refine ⟨tScore19_eval.1, tScore19_eval.2, h19, tScore20_eval.1, tScore20_eval.2, h20, ?_, ?_⟩
  · rw [tScore19_eval.1, tScore20_eval.1]
    decide
  · rw [h19, h20]
    norm_num

/-! ## C4: risk level and confidence as a function of the winning score -/

/-- The documented risk-level mapping, written from the spec's words
(§4.1 step 4): score ≥ 40 → high; 20 ≤ score < 40 → medium;
5 ≤ score < 20 → low; score < 5 → none. -/
def specRiskLevel (score : Nat) : String :=
  if 40 ≤ score then "high"
  else if 20 ≤ score then "medium"
  else if 5 ≤ score then "low"
  else "none"

/-- The documented confidence mapping, written from the spec's words
(§4.1 step 4). -/
def specConfidence (score : Nat) : ℚ :=
  if 40 ≤ score then min 0.95 ((score : ℚ) / 100)
  else if 20 ≤ score then min 0.80 ((score : ℚ) / 50)
  else if 5 ≤ score then (score : ℚ) / 20
  else 0

/-- The source's risk mapping agrees with the documented one and its
confidence always lies in [0, 1]. -/
theorem riskOf_spec (s : Nat) :
    (riskOf s).1 = specRiskLevel s ∧ (riskOf s).2 = specConfidence s ∧
    0 ≤ (riskOf s).2 ∧ (riskOf s).2 ≤ 1 := by
  unfold riskOf specRiskLevel specConfidence
  split_ifs with h1 h2 h3
  · refine ⟨rfl, rfl, le_min (by norm_num) (by positivity), ?_⟩
    exact le_trans (min_le_left _ _) (by norm_num)
  · refine ⟨rfl, rfl, le_min (by norm_num) (by positivity), ?_⟩
    exact le_trans (min_le_left _ _) (by norm_num)
  · refine ⟨rfl, rfl, by positivity, ?_⟩
    rw [div_le_one (by norm_num)]
    have : (s : ℚ) < 20 := by exact_mod_cast (by omega : s < 20)
    linarith
  · exact ⟨rfl, rfl, le_refl 0, by norm_num⟩

/-- C4: for every input text, the local result's confidence lies in
[0, 1], and its risk level and confidence are the documented pure
function of the winning total score (`local_score`): score ≥ 40 →
high, min(0.95, score/100); 20 ≤ score < 40 → medium,
min(0.80, score/50); 5 ≤ score < 20 → low, score/20; score < 5 →
none, 0. -/
theorem C4_risk_confidence (t : String) :
    0 ≤ (FraudAnalyzer.analyze_text t).confidence ∧
    (FraudAnalyzer.analyze_text t).confidence ≤ 1 ∧
    (FraudAnalyzer.analyze_text t).risk_level =
      specRiskLevel (FraudAnalyzer.analyze_text t).local_score ∧
    (FraudAnalyzer.analyze_text t).confidence =
      specConfidence (FraudAnalyzer.analyze_text t).local_score := by
  rw [FraudAnalyzer.analyze_text, analyzeWith_confidence, analyzeWith_risk_level]
  obtain ⟨h1, h2, h3, h4⟩ := riskOf_spec (analyzeWith FRAUD_PATTERNS t).local_score
  exact ⟨h3, h4, h1, h2⟩

/-! ## C8: appending a red-flag phrase never decreases the score -/

/-- A filter with a pointwise-weaker predicate keeps at most as many
elements. -/
theorem length_filter_le_of_imp {α : Type} (l : List α) (f g : α → Bool)
    (h : ∀ a ∈ l, f a = true → g a = true) :
    (l.filter f).length ≤ (l.filter g).length := by
  induction l with
  | nil => exact Nat.le_refl 0
  | cons a l ih =>
    have ih' := ih (fun x hx hfx => h x (List.mem_cons_of_mem a hx) hfx)
    by_cases hf : f a = true
    · have hg := h a (List.mem_cons_self a l) hf
      simp only [List.filter_cons, hf, hg, if_true, List.length_cons]
      exact Nat.succ_le_succ ih'
    · rw [List.filter_cons_of_neg hf]
      cases hg : g a with
      | false => rw [List.filter_cons_of_neg (by simp [hg])]; exact ih'
      | true =>
        rw [List.filter_cons_of_pos hg, List.length_cons]
        exact Nat.le_trans ih' (Nat.le_succ _)

/-- A substring of a text is a substring of any right extension of it. -/
theorem pyIn_append_of_pyIn (pat : String) (l m : List Char)
    (h : pyIn pat l = true) : pyIn pat (l ++ m) = true := by
  unfold pyIn at h ⊢
  rw [decide_eq_true_eq] at h ⊢
  exact h.trans ⟨[], m, rfl⟩

/-- Extending a text on the right never decreases a category's score. -/
theorem categoryScore_append_mono (p : Patterns) (l m : List Char) :
    categoryScore p l ≤ categoryScore p (l ++ m) := by
  unfold categoryScore
  have h1 := length_filter_le_of_imp p.keywords _ _
    (fun k _ hk => pyIn_append_of_pyIn k l m hk)
  have h2 := length_filter_le_of_imp p.urgency _ _
    (fun u _ hu => pyIn_append_of_pyIn u l m hu)
  have h3 := length_filter_le_of_imp p.red_flags _ _
    (fun f _ hf => pyIn_append_of_pyIn f l m hf)
  exact Nat.add_le_add (Nat.add_le_add h1 (Nat.mul_le_mul_left 2 h2))
    (Nat.mul_le_mul_left 3 h3)

/-- C8: for every transcript `t`, every category of the rule table and
every configured red-flag phrase of that category, appending an
occurrence of that phrase to `t` never decreases that category's total
score. -/
theorem C8_red_flag_append_mono (t : String) (cat : String) (p : Patterns)
    (phrase : String) (hmem : (cat, p) ∈ FRAUD_PATTERNS)
    (hflag : phrase ∈ p.red_flags) :
    categoryScore p (pyLower t.data) ≤ categoryScore p (pyLower (t ++ phrase).data) := by
  rw [show (t ++ phrase).data = t.data ++ phrase.data from rfl]
  rw [show pyLower (t.data ++ phrase.data) = pyLower t.data ++ pyLower phrase.data from
    List.map_append pyLowerChar t.data phrase.data]
  exact categoryScore_append_mono p (pyLower t.data) (pyLower phrase.data)

/-- C8 witness: appending the credit red flag `дайте коды` to a
concrete transcript. -/
theorem C8_red_flag_append_mono_witness :
    categoryScore creditPatterns (pyLower "тест".data) ≤
      categoryScore creditPatterns (pyLower ("тест" ++ "дайте коды").data) :=
  C8_red_flag_append_mono "тест" "credit" creditPatterns "дайте коды"
    (by decide) (by decide)

/-! ## C9: the uppercase keyword `ЖКХ` is dead -/

/-- `Char.ofNat` of a scalar value below the surrogate range decodes
back to it. -/
theorem toNat_ofNat_of_lt {m : Nat} (h : m < 55296) : (Char.ofNat m).toNat = m := by
  rw [Char.ofNat, dif_pos (Or.inl h)]
  rfl

/-- Lowercasing never produces the uppercase letter `Ж`. -/
theorem pyLowerChar_ne_zhe (c : Char) : pyLowerChar c ≠ 'Ж' := by
  have hzhe : Char.toNat 'Ж' = 1046 := rfl
  unfold pyLowerChar
  split_ifs with h1 h2 h3
  · intro he
    have h := congrArg Char.toNat he
    rw [toNat_ofNat_of_lt (by omega), hzhe] at h
    omega
  · intro he
    have h := congrArg Char.toNat he
    rw [toNat_ofNat_of_lt (by omega), hzhe] at h
    omega
  · intro he
    have h := congrArg Char.toNat he
    rw [toNat_ofNat_of_lt (by omega), hzhe] at h
    omega
  · intro he
    rw [he] at h2
    exact h2 (by rw [hzhe]; omega)

/-- The keyword `ЖКХ` never occurs in a lowercased text. -/
theorem pyIn_zhkh_eq_false (l : List Char) : pyIn "ЖКХ" (pyLower l) = false := by
  rw [← Bool.not_eq_true, pyIn, decide_eq_true_eq]
  intro h
  have hmem : 'Ж' ∈ pyLower l := h.subset (by decide)
  obtain ⟨c, _, hc⟩ := List.mem_map.mp hmem
  exact pyLowerChar_ne_zhe c hc

/-- The `utility` entry with the dead keyword `ЖКХ` removed. -/
def utilityPatternsTrimmed : Patterns where
  keywords := ["квартира", "коммунальные", "электричество", "вода",
               "газ", "интернет", "счет", "оплата"]
  urgency := utilityPatterns.urgency
  red_flags := utilityPatterns.red_flags

/-- The rule table with `ЖКХ` removed from the `utility` keywords. -/
def FRAUD_PATTERNS_trimmed : List (String × Patterns) :=
  [("credit", creditPatterns), ("sim_swap", simSwapPatterns),
   ("investment", investmentPatterns), ("utility", utilityPatternsTrimmed),
   ("lottery", lotteryPatterns)]

/-- On any text in which `ЖКХ` does not occur, the utility score is
unchanged by dropping the keyword. -/
theorem categoryScore_utility_trimmed (tl : List Char) (h : pyIn "ЖКХ" tl = false) :
    categoryScore utilityPatterns tl = categoryScore utilityPatternsTrimmed tl := by
  unfold categoryScore
  rw [show utilityPatterns.keywords = utilityPatternsTrimmed.keywords ++ ["ЖКХ"] from rfl,
    List.filter_append]
  simp only [List.filter_cons, h, Bool.false_eq_true, if_false, List.filter_nil,
    List.append_nil]
  rfl

/-- C9: the utility keyword `ЖКХ` can never match, because the scorer
lowercases the input before the case-sensitive substring test while the
configured keyword is uppercase; consequently the scorer is
extensionally equal to the same scorer with `ЖКХ` removed from the rule
table. -/
theorem C9_zhkh_dead_keyword :
    (∀ t : String, pyIn "ЖКХ" (pyLower t.data) = false) ∧
    (∀ t : String, FraudAnalyzer.analyze_text t = analyzeWith FRAUD_PATTERNS_trimmed t) := by
  refine ⟨fun t => pyIn_zhkh_eq_false t.data, fun t => ?_⟩
  rw [FraudAnalyzer.analyze_text]
  unfold analyzeWith
  simp only [FRAUD_PATTERNS, FRAUD_PATTERNS_trimmed, List.map_cons, List.map_nil]
  rw [categoryScore_utility_trimmed (pyLower t.data) (pyIn_zhkh_eq_false t.data)]
  rfl

/-! ## C3: the winner is the first category with the greatest score -/

/-- Unfolding `pyMax` one step. -/
theorem pyMax_cons {α : Type} (sc : α → Nat) (x y : α) (l : List α) :
    pyMax sc x (y :: l) = pyMax sc (if sc y > sc x then y else x) l := rfl

/-- Python's `max` with a key returns the first maximal element: the
scanned sequence decomposes around the returned element, everything
before it scoring strictly less and everything after it scoring at
most as much. -/
theorem pyMax_first {α : Type} (sc : α → Nat) (x : α) (l : List α) :
    ∃ pre post, x :: l = pre ++ pyMax sc x l :: post ∧
      (∀ y ∈ pre, sc y < sc (pyMax sc x l)) ∧
      (∀ y ∈ post, sc y ≤ sc (pyMax sc x l)) ∧
      (pyMax sc x l = x ∨ sc x < sc (pyMax sc x l)) := by
  induction l generalizing x with
  | nil =>
    exact ⟨[], [], rfl, fun y hy => absurd hy (List.not_mem_nil y),
      fun y hy => absurd hy (List.not_mem_nil y), Or.inl rfl⟩
  | cons y ys ih =>
    rw [pyMax_cons]
    by_cases hxy : sc y > sc x
    · rw [if_pos hxy]
      obtain ⟨pre, post, hdec, hpre, hpost, hor⟩ := ih y
      have hxm : sc x < sc (pyMax sc y ys) := by
        rcases hor with h | h
        · rw [h]; exact hxy
        · exact Nat.lt_trans hxy h
      refine ⟨x :: pre, post, ?_, ?_, hpost, Or.inr hxm⟩
      · rw [List.cons_append, ← hdec]
      · intro z hz
        rcases List.mem_cons.mp hz with rfl | hz'
        · exact hxm
        · exact hpre z hz'
    · rw [if_neg hxy]
      have hyx : sc y ≤ sc x := Nat.le_of_not_lt hxy
      obtain ⟨pre, post, hdec, hpre, hpost, hor⟩ := ih x
      cases pre with
      | nil =>
        rw [List.nil_append] at hdec
        injection hdec with hmx hpost'
        refine ⟨[], y :: ys, ?_, fun z hz => absurd hz (List.not_mem_nil z), ?_, Or.inl hmx.symm⟩
        · rw [List.nil_append, ← hmx]
        · intro z hz
          rcases List.mem_cons.mp hz with rfl | hz'
          · rw [← hmx]; exact hyx
          · exact hpost z (hpost' ▸ hz')
      | cons a pre' =>
        rw [List.cons_append] at hdec
        injection hdec with hax hys
        have hxm : sc x < sc (pyMax sc x ys) := by
          have h := hpre a (List.mem_cons_self a pre')
          rwa [← hax] at h
        refine ⟨x :: y :: pre', post, ?_, ?_, hpost, Or.inr hxm⟩
        · rw [List.cons_append, List.cons_append, ← hys]
        · intro z hz
          rcases List.mem_cons.mp hz with rfl | hz'
          · exact hxm
          · rcases List.mem_cons.mp hz' with rfl | hz''
            · exact Nat.lt_of_le_of_lt hyx hxm
            · exact hpre z (List.mem_cons_of_mem a hz'')

/-- The per-category `(name, score, flags)` entries of a run of the
scorer, in declaration order (the `scores` dict of src/main.py
lines 106-131). -/
def scoredOf (t : String) : List (String × Nat × List String) :=
  FRAUD_PATTERNS.map (fun np =>
    (np.1, categoryScore np.2 (pyLower t.data), matchedFlags np.2 (pyLower t.data)))

/-- The scorer's output is determined by `pyMax` over the score
entries. -/
theorem analyze_text_eq_best (t : String) :
    ∃ x rest, scoredOf t = x :: rest ∧
      FraudAnalyzer.analyze_text t =
        { fraud_type :=
            if 0 < (pyMax (fun e => e.2.1) x rest).2.1
            then (pyMax (fun e => e.2.1) x rest).1 else "unknown",
          risk_level := (riskOf (pyMax (fun e => e.2.1) x rest).2.1).1,
          confidence := (riskOf (pyMax (fun e => e.2.1) x rest).2.1).2,
          red_flags := (pyMax (fun e => e.2.1) x rest).2.2.take 5,
          local_score := (pyMax (fun e => e.2.1) x rest).2.1,
          method := "local_patterns" } :=
  ⟨("credit", categoryScore creditPatterns (pyLower t.data),
      matchedFlags creditPatterns (pyLower t.data)),
   [("sim_swap", categoryScore simSwapPatterns (pyLower t.data),
      matchedFlags simSwapPatterns (pyLower t.data)),
    ("investment", categoryScore investmentPatterns (pyLower t.data),
      matchedFlags investmentPatterns (pyLower t.data)),
    ("utility", categoryScore utilityPatterns (pyLower t.data),
      matchedFlags utilityPatterns (pyLower t.data)),
    ("lottery", categoryScore lotteryPatterns (pyLower t.data),
      matchedFlags lotteryPatterns (pyLower t.data))],
   rfl, rfl⟩

/-- C3: for every input text the score entries decompose around a
winning entry `w`: every category declared before `w` scores strictly
less and every category after it scores at most as much (so `w` is the
first category attaining the greatest score, ties broken by
declaration order); the returned `fraud_type` is `w`'s category unless
the winning score is 0, in which case it is `unknown` and the risk
level is `none`. -/
theorem C3_first_argmax (t : String) :
    ∃ pre w post,
      scoredOf t = pre ++ w :: post ∧
      (∀ y ∈ pre, y.2.1 < w.2.1) ∧
      (∀ y ∈ post, y.2.1 ≤ w.2.1) ∧
      (FraudAnalyzer.analyze_text t).local_score = w.2.1 ∧
      (FraudAnalyzer.analyze_text t).fraud_type =
        (if w.2.1 = 0 then "unknown" else w.1) ∧
      (FraudAnalyzer.analyze_text t).risk_level =
        (if w.2.1 = 0 then "none" else (riskOf w.2.1).1) := by
  obtain ⟨x, rest, hsc, hana⟩ := analyze_text_eq_best t
  obtain ⟨pre, post, hdec, hpre, hpost, -⟩ := pyMax_first (fun e => e.2.1) x rest
  refine ⟨pre, pyMax (fun e => e.2.1) x rest, post, ?_, hpre, hpost, ?_, ?_, ?_⟩
  · rw [hsc]; exact hdec
  · rw [hana]
  · rw [hana]
    rcases Nat.eq_zero_or_pos (pyMax (fun e => e.2.1) x rest).2.1 with h0 | hpos
    · simp [h0]
    · simp [Nat.pos_iff_ne_zero.mp hpos, hpos]
  · rw [hana]
    rcases Nat.eq_zero_or_pos (pyMax (fun e => e.2.1) x rest).2.1 with h0 | hpos
    · simp only [h0, if_pos rfl]
      rfl
    · rw [if_neg (Nat.pos_iff_ne_zero.mp hpos)]

end GuardCall
